import Mathlib

/-!
# Verification of the `PolicyManager` parametric-insurance contract

Shallow embedding of `src/near_parametric_rust/src/policyManager/src/lib.rs`.

Modelling conventions:
* `AccountId` and Rust `String` become Lean `String`; `u64`/`u8` become `Nat`.
* `f64` monetary amounts become `ℚ` (exact rational arithmetic); theorems about
  balances therefore speak about the exact arithmetic the source performs.
* `near_sdk::collections::UnorderedMap` becomes an association list with
  first-match lookup (`mapGet`) and replace-or-append insertion (`mapInsert`).
* `env::predecessor_account_id`, `env::current_account_id` and
  `env::block_timestamp` are passed explicitly in an `Env` record.
* A contract method becomes a function returning `CallResult`: `ok` carries the
  post-state and return value, `panic` (a Rust assert, panic or unwrap
  failure) carries the storage state as already written at the moment of the
  panic.  Writes performed before a panic persist in that carried state; this is
  the write-through reading the specification itself uses when it notes that a
  late failure in `post_loss_decision` "leaves the Policy already mutated".
* `Vec::iter().position(..)` followed by `get(i).unwrap()` and `remove(i)` on
  the first matching element is modelled by `List.find?` together with
  `removeFirst` (remove the first element satisfying the predicate).
-/

inductive UserType where
  | PayoutAuthority
  | PaymentProcessor
  | Client
  | Issuer
deriving DecidableEq

structure User where
  user_type : UserType
  id : String
  authorized_administrator : String
deriving DecidableEq

structure Location where
  latitude : ℚ
  longitude : ℚ
deriving DecidableEq

structure Quote where
  id : String
  issuer : User
  client : User
  claims_manager : String
  policy_type : Nat
  max_payout : ℚ
  coverage_period : Nat × Nat
  policy_manager : String
  location : Location
deriving DecidableEq

structure LossIdentity where
  id : String
  event_id : String
  policy_id : String
  client_id : String
  issuer_id : String
deriving DecidableEq

structure OracleMetadata where
  triggering_values : List (String × Nat)
  claims_manager : String
  oracle : String
deriving DecidableEq

structure LossCalculation where
  payout_percent : ℚ
  amount_due : ℚ
deriving DecidableEq

structure ComputedLoss where
  identity : LossIdentity
  oracle_data : OracleMetadata
  calculations : LossCalculation
deriving DecidableEq

structure Obligation where
  computed_loss : ComputedLoss
  contract_update_time : Nat
deriving DecidableEq

structure Payment where
  contract_update_time : Nat
  payment_proof : String
  obligation : Obligation
deriving DecidableEq

structure LossContext where
  identity : LossIdentity
  oracle_data : OracleMetadata
  policy_type : Nat
  balance_snapshot : ℚ
  current_percent : Nat
deriving DecidableEq

structure ResolveObligation where
  identity : LossIdentity
  payment_proof : String
deriving DecidableEq

structure LossDecision where
  accept : Bool
  identity : LossIdentity
deriving DecidableEq

structure Policy where
  policy_id : String
  balance : ℚ
  pending_balance : ℚ
  quote : Quote
  start_date : Nat
  end_date : Nat
  active : Bool
  issuer : User
  client : User
  claims_manager : String
  policy_type : Nat
  max_payout : ℚ
  location : Location
  payments : List Payment
  obligations : List Obligation
  rejected_losses : List ComputedLoss
  computed_losses : List ComputedLoss
deriving DecidableEq

/-- Contract storage (the `PolicyManager` struct). `UnorderedMap`s are
association lists. -/
structure PolicyManager where
  policies : List (String × Policy)
  master_admin : String
  new_master_admin : Option String
  policy_managers : List String
  obligations : List (String × List Obligation)
  clients : List (String × List String)
  loss_identities : List (String × List LossIdentity)
deriving DecidableEq

structure Env where
  predecessor_account_id : String
  current_account_id : String
  block_timestamp : Nat
deriving DecidableEq

/-- Panic messages of the source, as an enumeration.  Each constructor carries
the Rust message it stands for (see the comments). -/
inductive ContractError where
  /-- "POLICY_MANAGER_RESTRICTED" -/
  | policyManagerRestricted
  /-- "OBLIGATION_NOT_FOUND" -/
  | obligationNotFound
  /-- "OBLIGATION_NOT_FOUND_IN_MANAGER" -/
  | obligationNotFoundInManager
  /-- "OBLIGATION_NOT_FOUND_IN_VEC" -/
  | obligationNotFoundInVec
  /-- `Option::unwrap()` on `None` (e.g. `payment_response.unwrap()` when the
  policy was absent, `loss_contexts.last().unwrap()` on an empty list, or
  `self.loss_identities.get(..).unwrap()` with no entry for the client). -/
  | unwrapNone
  /-- "Not Authorized to Confirm loss for this client." -/
  | notAuthorizedToConfirmLoss
  /-- "COMPUTED_LOSS_NOT_FOUND_IN_POLICY" -/
  | computedLossNotFoundInPolicy
  /-- "ISSUER_OBLIGATIONS_NOT_FOUND" -/
  | issuerObligationsNotFound
  /-- "LOSS_IDENTITY_NOT_FOUND" -/
  | lossIdentityNotFound
  /-- "ERR_TOO_MANY_RESULTS" -/
  | errTooManyResults
  /-- "ERR_WRONG_VAL_RECEIVED" -/
  | errWrongValReceived
  /-- "ERR_CALL_FAILED" -/
  | errCallFailed
  /-- `unreachable!()` -/
  | unreachableReached
deriving DecidableEq

/-- Outcome of a contract call: either a normal return with the new storage
state, or a panic carrying the storage as already written when the panic
fired. -/
inductive CallResult (σ : Type) (α : Type) where
  | ok (state : σ) (value : α)
  | panic (state : σ) (error : ContractError)
deriving DecidableEq

/-- `UnorderedMap::get`: value of the first binding of the key. -/
def mapGet {α : Type} (m : List (String × α)) (k : String) : Option α :=
  (m.find? (fun kv => kv.1 == k)).map (fun kv => kv.2)

/-- `UnorderedMap::insert`: replace the binding of the key, or append one. -/
def mapInsert {α : Type} (m : List (String × α)) (k : String) (v : α) :
    List (String × α) :=
  match m with
  | [] => [(k, v)]
  | kv :: rest => if kv.1 == k then (k, v) :: rest else kv :: mapInsert rest k v

/-- Remove the first element satisfying `p` (Rust
`vec.remove(vec.iter().position(p).unwrap())`); the list is unchanged when no
element matches. -/
def removeFirst {α : Type} (p : α → Bool) : List α → List α
  | [] => []
  | x :: xs => if p x then xs else x :: removeFirst p xs

/-- `PolicyManager::new` (the `#[init]` method). -/
def PolicyManager.new (env : Env) : PolicyManager :=
  { policies := []
    master_admin := env.predecessor_account_id
    new_master_admin := none
    policy_managers := []
    obligations := []
    clients := []
    loss_identities := [] }

/-- `save_policy`.  NOTE: in the source the authorization assert
(`policy_managers.contains(predecessor)`) at the top of the function is
commented out, so the function performs no check at all. -/
def save_policy (self : PolicyManager) (_env : Env) (policy : Policy) :
    CallResult PolicyManager Policy :=
  CallResult.ok
    { self with policies := mapInsert self.policies policy.policy_id policy }
    policy

/-- `get_policy`. -/
def get_policy (self : PolicyManager) (policy_id : String) : Option Policy :=
  mapGet self.policies policy_id

/-- `get_policy_balance`. -/
def get_policy_balance (self : PolicyManager) (policy_id : String) :
    CallResult PolicyManager ℚ :=
  match mapGet self.policies policy_id with
  | none => CallResult.panic self ContractError.unwrapNone
  | some policy => CallResult.ok self policy.balance

/-- Predicate used by `post_payment_made` and `post_loss_decision` to locate an
obligation: comparison is on the `id` field of the loss identity only. -/
def obligationMatches (identity : LossIdentity) (ob : Obligation) : Bool :=
  ob.computed_loss.identity.id == identity.id

/-- Predicate locating a computed loss by the `id` field of its identity. -/
def computedLossMatches (identity : LossIdentity) (cl : ComputedLoss) : Bool :=
  cl.identity.id == identity.id

/-- Predicate locating a loss identity in the per-client index by `id`. -/
def lossIdentityMatches (identity : LossIdentity) (li : LossIdentity) : Bool :=
  li.id == identity.id

/-- `post_payment_made`.  Mirrors the source order of effects: authorization
assert, policy lookup (absence later panics on `payment_response.unwrap()`),
obligation lookup by identity id, payment construction, policy mutation and
persistence, and only then the per-issuer obligation-index lookups and
rewrite. -/
def post_payment_made (self : PolicyManager) (env : Env)
    (resolve_obligation : ResolveObligation) : CallResult PolicyManager Payment :=
  if self.policy_managers.contains env.predecessor_account_id then
    match mapGet self.policies resolve_obligation.identity.policy_id with
    | none =>
        -- the `if let Some` body is skipped; `payment_response.unwrap()` panics
        CallResult.panic self ContractError.unwrapNone
    | some policy =>
        match policy.obligations.find? (obligationMatches resolve_obligation.identity) with
        | none => CallResult.panic self ContractError.obligationNotFound
        | some obligation =>
            let completed_payment : Payment :=
              { contract_update_time := env.block_timestamp
                obligation := obligation
                payment_proof := resolve_obligation.payment_proof }
            let policy' : Policy :=
              { policy with
                  payments := policy.payments ++ [completed_payment]
                  obligations :=
                    removeFirst (obligationMatches resolve_obligation.identity)
                      policy.obligations
                  balance :=
                    policy.balance - obligation.computed_loss.calculations.amount_due }
            let self' : PolicyManager :=
              { self with
                  policies :=
                    mapInsert self.policies resolve_obligation.identity.policy_id policy' }
            match mapGet self'.obligations resolve_obligation.identity.issuer_id with
            | none => CallResult.panic self' ContractError.obligationNotFoundInManager
            | some obligation_vec =>
                match obligation_vec.find? (obligationMatches resolve_obligation.identity) with
                | none => CallResult.panic self' ContractError.obligationNotFoundInVec
                | some _ =>
                    CallResult.ok
                      { self' with
                          obligations :=
                            mapInsert self'.obligations
                              resolve_obligation.identity.issuer_id
                              (removeFirst (obligationMatches resolve_obligation.identity)
                                obligation_vec) }
                      completed_payment
  else
    CallResult.panic self ContractError.policyManagerRestricted

/-- The remote request dispatched by `compute_loss` (the `Promise` it builds):
which claims-manager account is called, with which payload, and which account
receives the callback. -/
structure PromiseDispatch where
  claims_manager : String
  loss_contexts : List LossContext
  callback_account : String
deriving DecidableEq

/-- `compute_loss` (read-only `&self`): takes the *last* submitted context's
claims manager and dispatches one remote call; `last().unwrap()` panics on an
empty list before any dispatch is built. -/
def compute_loss (self : PolicyManager) (env : Env)
    (loss_contexts : List LossContext) : CallResult PolicyManager PromiseDispatch :=
  match loss_contexts.getLast? with
  | none => CallResult.panic self ContractError.unwrapNone
  | some loss_context =>
      CallResult.ok self
        { claims_manager := loss_context.oracle_data.claims_manager
          loss_contexts := loss_contexts
          callback_account := env.current_account_id }

/-- Result of the remote `compute_loss` promise as seen by the callback.
`Successful none` stands for a payload that fails to deserialize to
`Vec<ComputedLoss>`. -/
inductive PromiseResult where
  | NotReady
  | Successful (value : Option (List ComputedLoss))
  | Failed
deriving DecidableEq

/-- Body of the loop in `compute_loss_callback`: apply one delivered
`ComputedLoss` — if its policy exists, append it to `computed_losses`, debit
`pending_balance` by `amount_due` and persist (keyed by `policy.policy_id`);
otherwise leave the state untouched. -/
def apply_computed_loss (self : PolicyManager) (computed_loss : ComputedLoss) :
    PolicyManager :=
  match mapGet self.policies computed_loss.identity.policy_id with
  | none => self
  | some policy =>
      let policy' : Policy :=
        { policy with
            computed_losses := policy.computed_losses ++ [computed_loss]
            pending_balance :=
              policy.pending_balance - computed_loss.calculations.amount_due }
      { self with policies := mapInsert self.policies policy.policy_id policy' }

/-- `compute_loss_callback` (`#[private]`): asserts exactly one promise result,
then on success folds `apply_computed_loss` over the delivered losses and
returns them; a failed promise or a malformed payload panics with no state
change. -/
def compute_loss_callback (self : PolicyManager) (promise_results_count : Nat)
    (result : PromiseResult) : CallResult PolicyManager (List ComputedLoss) :=
  if promise_results_count == 1 then
    match result with
    | PromiseResult.NotReady => CallResult.panic self ContractError.unreachableReached
    | PromiseResult.Successful none =>
        CallResult.panic self ContractError.errWrongValReceived
    | PromiseResult.Successful (some computed_losses) =>
        CallResult.ok (computed_losses.foldl apply_computed_loss self) computed_losses
    | PromiseResult.Failed => CallResult.panic self ContractError.errCallFailed
  else
    CallResult.panic self ContractError.errTooManyResults

/-- `get_computed_loss` (read-only). -/
def get_computed_loss (self : PolicyManager) (loss_identity : LossIdentity) :
    CallResult PolicyManager ComputedLoss :=
  match mapGet self.policies loss_identity.policy_id with
  | none => CallResult.panic self ContractError.unwrapNone
  | some policy =>
      match policy.computed_losses.find? (computedLossMatches loss_identity) with
      | none => CallResult.panic self ContractError.computedLossNotFoundInPolicy
      | some computed_loss => CallResult.ok self computed_loss

/-- First phase of `post_loss_decision` (source lines 571–613): the
`if let Some(mut policy)` block.  When the policy is absent the whole block is
skipped without any error; when present, the client-administrator assert runs
and the accepted/rejected computed loss is moved, with the issuer obligation
index updated before the policy is persisted. -/
def post_loss_decision_policy (self : PolicyManager) (env : Env)
    (loss_decision : LossDecision) : CallResult PolicyManager Unit :=
  match mapGet self.policies loss_decision.identity.policy_id with
  | none => CallResult.ok self ()
  | some policy =>
      if policy.quote.client.authorized_administrator == env.predecessor_account_id then
        if loss_decision.accept then
          match policy.computed_losses.find? (computedLossMatches loss_decision.identity) with
          | none => CallResult.panic self ContractError.computedLossNotFoundInPolicy
          | some computed_loss =>
              let new_obligation : Obligation :=
                { computed_loss := computed_loss
                  contract_update_time := env.block_timestamp }
              let policy' : Policy :=
                { policy with
                    computed_losses :=
                      removeFirst (computedLossMatches loss_decision.identity)
                        policy.computed_losses
                    obligations := policy.obligations ++ [new_obligation] }
              match mapGet self.obligations loss_decision.identity.issuer_id with
              | none => CallResult.panic self ContractError.issuerObligationsNotFound
              | some issuer_obligations =>
                  let self' : PolicyManager :=
                    { self with
                        obligations :=
                          mapInsert self.obligations loss_decision.identity.issuer_id
                            (issuer_obligations ++ [new_obligation]) }
                  CallResult.ok
                    { self' with
                        policies := mapInsert self'.policies policy'.policy_id policy' }
                    ()
        else
          match policy.computed_losses.find? (computedLossMatches loss_decision.identity) with
          | none => CallResult.panic self ContractError.computedLossNotFoundInPolicy
          | some computed_loss =>
              let rejected' : List ComputedLoss :=
                policy.rejected_losses ++ [computed_loss]
              match rejected'.getLast? with
              | none => CallResult.panic self ContractError.unwrapNone
              | some last_loss =>
                  let policy' : Policy :=
                    { policy with
                        computed_losses :=
                          removeFirst (computedLossMatches loss_decision.identity)
                            policy.computed_losses
                        rejected_losses := rejected'
                        pending_balance :=
                          policy.pending_balance + last_loss.calculations.amount_due }
                  CallResult.ok
                    { self with
                        policies := mapInsert self.policies policy'.policy_id policy' }
                    ()
      else
        CallResult.panic self ContractError.notAuthorizedToConfirmLoss

/-- Second phase of `post_loss_decision` (source lines 614–626): unconditional
removal of the decided `LossIdentity` from the per-client loss-identity index;
`unwrap()` panics when the client has no index entry, and an explicit panic
fires when the identity is not in the entry. -/
def remove_loss_identity (self : PolicyManager) (loss_decision : LossDecision) :
    CallResult PolicyManager LossDecision :=
  match mapGet self.loss_identities loss_decision.identity.client_id with
  | none => CallResult.panic self ContractError.unwrapNone
  | some loss_identities_vec =>
      match loss_identities_vec.find? (lossIdentityMatches loss_decision.identity) with
      | none => CallResult.panic self ContractError.lossIdentityNotFound
      | some _ =>
          CallResult.ok
            { self with
                loss_identities :=
                  mapInsert self.loss_identities loss_decision.identity.client_id
                    (removeFirst (lossIdentityMatches loss_decision.identity)
                      loss_identities_vec) }
            loss_decision

/-- `post_loss_decision`: the policy phase followed by the loss-identity-index
removal; the decision is returned unchanged as acknowledgment. -/
def post_loss_decision (self : PolicyManager) (env : Env)
    (loss_decision : LossDecision) : CallResult PolicyManager LossDecision :=
  match post_loss_decision_policy self env loss_decision with
  | CallResult.panic s e => CallResult.panic s e
  | CallResult.ok s _ => remove_loss_identity s loss_decision

/-! ## Basic lemmas about the storage model -/

theorem mapGet_mapInsert_self {α : Type} (m : List (String × α)) (k : String) (v : α) :
    mapGet (mapInsert m k v) k = some v := by
  induction m with
  | nil => simp [mapGet, mapInsert, List.find?]
  | cons kv rest ih =>
      by_cases h : kv.1 = k
      · simp [mapGet, mapInsert, List.find?, h]
      · have hb : (kv.1 == k) = false := by simp [h]
        simpa [mapGet, mapInsert, List.find?, hb] using ih

theorem mapGet_mapInsert_ne {α : Type} (m : List (String × α)) (k k' : String) (v : α)
    (h : k' ≠ k) : mapGet (mapInsert m k v) k' = mapGet m k' := by
  have hb : (k == k') = false := beq_eq_false_iff_ne.mpr (fun he => h he.symm)
  induction m with
  | nil => simp [mapGet, mapInsert, List.find?, hb]
  | cons kv rest ih =>
      by_cases hk : kv.1 = k
      · have hbkv : (kv.1 == k) = true := by simp [hk]
        have hbkv' : (kv.1 == k') = false := by subst hk; exact hb
        simp [mapGet, mapInsert, List.find?, hbkv, hb, hbkv']
      · have hbkv : (kv.1 == k) = false := by simp [hk]
        by_cases hk' : kv.1 = k'
        · have hbkv' : (kv.1 == k') = true := by simp [hk']
          simp [mapGet, mapInsert, List.find?, hbkv, hbkv']
        · have hbkv' : (kv.1 == k') = false := by simp [hk']
          simpa [mapGet, mapInsert, List.find?, hbkv, hbkv'] using ih

theorem removeFirst_append_of_none {α : Type} (p : α → Bool) (l₁ l₂ : List α)
    (h : l₁.find? p = none) :
    removeFirst p (l₁ ++ l₂) = l₁ ++ removeFirst p l₂ := by
  induction l₁ with
  | nil => simp
  | cons x xs ih =>
      have hx : p x = false := by
        have := List.find?_eq_none.mp h x (by simp)
        simpa using this
      have hxs : xs.find? p = none := by
        rw [List.find?_cons, hx] at h
        exact h
      simp [removeFirst, hx, ih hxs]

theorem removeFirst_cons_of_pos {α : Type} (p : α → Bool) (x : α) (l : List α)
    (h : p x = true) : removeFirst p (x :: l) = l := by
  simp [removeFirst, h]

theorem removeFirst_of_none {α : Type} (p : α → Bool) (l : List α)
    (h : l.find? p = none) : removeFirst p l = l := by
  have := removeFirst_append_of_none p l [] h
  simpa [removeFirst] using this

theorem find?_append_of_none {α : Type} (p : α → Bool) (l₁ l₂ : List α)
    (h : l₁.find? p = none) : (l₁ ++ l₂).find? p = l₂.find? p := by
  rw [List.find?_append, h, Option.none_or]

/-- Decomposition of a successful `find?`: the list splits around the first
match, and `removeFirst` deletes exactly that element. -/
theorem find?_decomp {α : Type} (p : α → Bool) (l : List α) (x : α)
    (h : l.find? p = some x) :
    ∃ l₁ l₂, l = l₁ ++ x :: l₂ ∧ l₁.find? p = none ∧ p x = true ∧
      removeFirst p l = l₁ ++ l₂ := by
  induction l with
  | nil => simp at h
  | cons y ys ih =>
      by_cases hy : p y
      · rw [List.find?_cons, hy] at h
        obtain rfl : y = x := by simpa using h
        exact ⟨[], ys, by simp, by simp, hy, by simp [removeFirst, hy]⟩
      · have hyf : p y = false := by simpa using hy
        rw [List.find?_cons, hyf] at h
        obtain ⟨l₁, l₂, hl, hn, hp, hr⟩ := ih h
        refine ⟨y :: l₁, l₂, by simp [hl], ?_, hp, ?_⟩
        · rw [List.find?_cons, hyf, hn]
        · simp [removeFirst, hyf, hr]

/-! ## Invariants, transition system and reachability -/

/-- The loss-identity ids appearing anywhere in the four lifecycle lists of a
policy (the specification's `computed_losses ∪ obligations ∪ rejected_losses ∪
payments`). -/
def policyLossIds (p : Policy) : List String :=
  p.computed_losses.map (fun cl => cl.identity.id) ++
    p.obligations.map (fun ob => ob.computed_loss.identity.id) ++
    p.rejected_losses.map (fun cl => cl.identity.id) ++
    p.payments.map (fun pay => pay.obligation.computed_loss.identity.id)

/-- Each loss id occurs at most once across the four lifecycle lists. -/
def uniqueIds (p : Policy) : Prop :=
  (policyLossIds p).Nodup

/-- Mutual exclusion of the `Computed` state: an id in `computed_losses` is in
neither `obligations` nor `rejected_losses`. -/
def mutualExclusion (p : Policy) : Prop :=
  ∀ i ∈ p.computed_losses.map (fun cl => cl.identity.id),
    i ∉ p.obligations.map (fun ob => ob.computed_loss.identity.id) ∧
      i ∉ p.rejected_losses.map (fun cl => cl.identity.id)

instance (p : Policy) : Decidable (mutualExclusion p) := by
  unfold mutualExclusion
  infer_instance

/-- Every stored policy has pairwise-distinct lifecycle ids. -/
def StateUnique (s : PolicyManager) : Prop :=
  ∀ pid p, mapGet s.policies pid = some p → uniqueIds p

/-- Every stored policy satisfies the mutual-exclusion invariant. -/
def StateMutex (s : PolicyManager) : Prop :=
  ∀ pid p, mapGet s.policies pid = some p → mutualExclusion p

theorem uniqueIds_mutualExclusion (p : Policy) (h : uniqueIds p) :
    mutualExclusion p := by
  unfold uniqueIds policyLossIds at h
  rw [List.append_assoc, List.append_assoc, List.nodup_append] at h
  intro i hi
  have hd := h.2.2 hi
  constructor
  · intro hmem
    exact hd (by simp [hmem])
  · intro hmem
    exact hd (by simp [hmem])

/-- One externally triggered state transition: a public mutating entry point
returning normally. -/
inductive ContractStep : PolicyManager → PolicyManager → Prop where
  | save (s : PolicyManager) (env : Env) (policy : Policy) (s' : PolicyManager)
      (r : Policy) (h : save_policy s env policy = CallResult.ok s' r) :
      ContractStep s s'
  | payment (s : PolicyManager) (env : Env) (ro : ResolveObligation)
      (s' : PolicyManager) (r : Payment)
      (h : post_payment_made s env ro = CallResult.ok s' r) : ContractStep s s'
  | decision (s : PolicyManager) (env : Env) (d : LossDecision)
      (s' : PolicyManager) (r : LossDecision)
      (h : post_loss_decision s env d = CallResult.ok s' r) : ContractStep s s'
  | callback (s : PolicyManager) (n : Nat) (pr : PromiseResult)
      (s' : PolicyManager) (r : List ComputedLoss)
      (h : compute_loss_callback s n pr = CallResult.ok s' r) : ContractStep s s'

/-- States reachable from a freshly initialized contract by successful public
calls. -/
inductive Reachable : PolicyManager → Prop where
  | init (env : Env) : Reachable (PolicyManager.new env)
  | step (s s' : PolicyManager) (hs : Reachable s) (h : ContractStep s s') :
      Reachable s'

/-! ## Success-path characterizations of the contract methods -/

theorem post_payment_made_eq (s : PolicyManager) (env : Env) (ro : ResolveObligation)
    (policy : Policy) (obligation : Obligation) (vec : List Obligation) (ov : Obligation)
    (hauth : s.policy_managers.contains env.predecessor_account_id = true)
    (hpol : mapGet s.policies ro.identity.policy_id = some policy)
    (hfind : policy.obligations.find? (obligationMatches ro.identity) = some obligation)
    (hvec : mapGet s.obligations ro.identity.issuer_id = some vec)
    (hvfind : vec.find? (obligationMatches ro.identity) = some ov) :
    post_payment_made s env ro =
      CallResult.ok
        { s with
            policies := mapInsert s.policies ro.identity.policy_id
              { policy with
                  payments := policy.payments ++
                    [{ contract_update_time := env.block_timestamp
                       obligation := obligation
                       payment_proof := ro.payment_proof }]
                  obligations :=
                    removeFirst (obligationMatches ro.identity) policy.obligations
                  balance :=
                    policy.balance - obligation.computed_loss.calculations.amount_due }
            obligations := mapInsert s.obligations ro.identity.issuer_id
              (removeFirst (obligationMatches ro.identity) vec) }
        { contract_update_time := env.block_timestamp
          obligation := obligation
          payment_proof := ro.payment_proof } := by
  have hmem : env.predecessor_account_id ∈ s.policy_managers := by simpa using hauth
  simp [post_payment_made, hmem, hpol, hfind, hvec, hvfind]

theorem post_payment_made_index_missing_eq (s : PolicyManager) (env : Env)
    (ro : ResolveObligation) (policy : Policy) (obligation : Obligation)
    (hauth : s.policy_managers.contains env.predecessor_account_id = true)
    (hpol : mapGet s.policies ro.identity.policy_id = some policy)
    (hfind : policy.obligations.find? (obligationMatches ro.identity) = some obligation)
    (hvecnone : mapGet s.obligations ro.identity.issuer_id = none) :
    post_payment_made s env ro =
      CallResult.panic
        { s with
            policies := mapInsert s.policies ro.identity.policy_id
              { policy with
                  payments := policy.payments ++
                    [{ contract_update_time := env.block_timestamp
                       obligation := obligation
                       payment_proof := ro.payment_proof }]
                  obligations :=
                    removeFirst (obligationMatches ro.identity) policy.obligations
                  balance :=
                    policy.balance - obligation.computed_loss.calculations.amount_due } }
        ContractError.obligationNotFoundInManager := by
  have hmem : env.predecessor_account_id ∈ s.policy_managers := by simpa using hauth
  simp [post_payment_made, hmem, hpol, hfind, hvecnone]

theorem post_loss_decision_policy_accept_eq (s : PolicyManager) (env : Env)
    (d : LossDecision) (policy : Policy) (cl : ComputedLoss) (vec : List Obligation)
    (hpol : mapGet s.policies d.identity.policy_id = some policy)
    (hauth : (policy.quote.client.authorized_administrator == env.predecessor_account_id) = true)
    (hacc : d.accept = true)
    (hfind : policy.computed_losses.find? (computedLossMatches d.identity) = some cl)
    (hvec : mapGet s.obligations d.identity.issuer_id = some vec) :
    post_loss_decision_policy s env d =
      CallResult.ok
        { s with
            obligations := mapInsert s.obligations d.identity.issuer_id
              (vec ++ [{ computed_loss := cl
                         contract_update_time := env.block_timestamp }])
            policies := mapInsert s.policies policy.policy_id
              { policy with
                  computed_losses :=
                    removeFirst (computedLossMatches d.identity) policy.computed_losses
                  obligations := policy.obligations ++
                    [{ computed_loss := cl
                       contract_update_time := env.block_timestamp }] } }
        () := by
  simp [post_loss_decision_policy, hpol, hauth, hacc, hfind, hvec]

theorem post_loss_decision_policy_reject_eq (s : PolicyManager) (env : Env)
    (d : LossDecision) (policy : Policy) (cl : ComputedLoss)
    (hpol : mapGet s.policies d.identity.policy_id = some policy)
    (hauth : (policy.quote.client.authorized_administrator == env.predecessor_account_id) = true)
    (hacc : d.accept = false)
    (hfind : policy.computed_losses.find? (computedLossMatches d.identity) = some cl) :
    post_loss_decision_policy s env d =
      CallResult.ok
        { s with
            policies := mapInsert s.policies policy.policy_id
              { policy with
                  computed_losses :=
                    removeFirst (computedLossMatches d.identity) policy.computed_losses
                  rejected_losses := policy.rejected_losses ++ [cl]
                  pending_balance :=
                    policy.pending_balance + cl.calculations.amount_due } }
        () := by
  simp [post_loss_decision_policy, hpol, hauth, hacc, hfind, List.getLast?_concat]

theorem post_loss_decision_policy_absent (s : PolicyManager) (env : Env)
    (d : LossDecision) (hpol : mapGet s.policies d.identity.policy_id = none) :
    post_loss_decision_policy s env d = CallResult.ok s () := by
  simp [post_loss_decision_policy, hpol]

theorem remove_loss_identity_eq (s : PolicyManager) (d : LossDecision)
    (lvec : List LossIdentity) (li : LossIdentity)
    (hlv : mapGet s.loss_identities d.identity.client_id = some lvec)
    (hli : lvec.find? (lossIdentityMatches d.identity) = some li) :
    remove_loss_identity s d =
      CallResult.ok
        { s with
            loss_identities := mapInsert s.loss_identities d.identity.client_id
              (removeFirst (lossIdentityMatches d.identity) lvec) }
        d := by
  simp [remove_loss_identity, hlv, hli]

theorem remove_loss_identity_policies (s s' : PolicyManager) (d r : LossDecision)
    (h : remove_loss_identity s d = CallResult.ok s' r) :
    s'.policies = s.policies ∧ r = d := by
  unfold remove_loss_identity at h
  split at h
  · cases h
  · rename_i lvec hlv
    split at h
    · cases h
    · cases h
      exact ⟨rfl, rfl⟩

/-! ## Preservation of id-uniqueness by the decision transition -/

theorem perm_move_to_second (A B O R P : List String) (x : String) :
    List.Perm ((A ++ B) ++ (O ++ [x]) ++ R ++ P) ((A ++ x :: B) ++ O ++ R ++ P) := by
  refine List.perm_iff_count.mpr ?_
  intro a
  simp [List.count_append, List.count_cons]
  ring

theorem perm_move_to_third (A B O R P : List String) (x : String) :
    List.Perm ((A ++ B) ++ O ++ (R ++ [x]) ++ P) ((A ++ x :: B) ++ O ++ R ++ P) := by
  refine List.perm_iff_count.mpr ?_
  intro a
  simp [List.count_append, List.count_cons]
  ring

/-- Accepting a computed loss moves one id from `computed_losses` to
`obligations`; the id inventory of the policy is a permutation of before. -/
theorem policyLossIds_accept_perm (policy : Policy) (d : LossDecision)
    (cl : ComputedLoss) (t : Nat)
    (hfind : policy.computed_losses.find? (computedLossMatches d.identity) = some cl) :
    List.Perm
      (policyLossIds
        { policy with
            computed_losses :=
              removeFirst (computedLossMatches d.identity) policy.computed_losses
            obligations := policy.obligations ++
              [{ computed_loss := cl, contract_update_time := t }] })
      (policyLossIds policy) := by
  obtain ⟨l₁, l₂, hl, _, _, hr⟩ := find?_decomp _ _ _ hfind
  rw [hl] at hr
  unfold policyLossIds
  simp only [hl, hr, List.map_append, List.map_cons, List.map_nil]
  exact perm_move_to_second _ _ _ _ _ _

/-- Rejecting a computed loss moves one id from `computed_losses` to
`rejected_losses`; the id inventory of the policy is a permutation of
before. -/
theorem policyLossIds_reject_perm (policy : Policy) (d : LossDecision)
    (cl : ComputedLoss) (b : ℚ)
    (hfind : policy.computed_losses.find? (computedLossMatches d.identity) = some cl) :
    List.Perm
      (policyLossIds
        { policy with
            computed_losses :=
              removeFirst (computedLossMatches d.identity) policy.computed_losses
            rejected_losses := policy.rejected_losses ++ [cl]
            pending_balance := b })
      (policyLossIds policy) := by
  obtain ⟨l₁, l₂, hl, _, _, hr⟩ := find?_decomp _ _ _ hfind
  rw [hl] at hr
  unfold policyLossIds
  simp only [hl, hr, List.map_append, List.map_cons, List.map_nil]
  exact perm_move_to_third _ _ _ _ _ _

/-- The policy phase of `post_loss_decision` preserves id-uniqueness of every
stored policy. -/
theorem post_loss_decision_policy_preserves_unique (s : PolicyManager) (env : Env)
    (d : LossDecision) (s₁ : PolicyManager) (u : Unit)
    (hU : StateUnique s)
    (h : post_loss_decision_policy s env d = CallResult.ok s₁ u) :
    StateUnique s₁ := by
  unfold post_loss_decision_policy at h
  split at h
  · cases h
    exact hU
  · rename_i policy hpol
    split at h
    · split at h
      · -- accept branch
        split at h
        · cases h
        · rename_i cl hfind
          split at h
          · cases h
          · rename_i vec hvec
            cases h
            intro pid p hp
            by_cases hk : pid = policy.policy_id
            · subst hk
              rw [mapGet_mapInsert_self] at hp
              cases hp
              exact ((policyLossIds_accept_perm policy d cl
                env.block_timestamp hfind).symm.nodup (hU _ _ hpol))
            · rw [mapGet_mapInsert_ne _ _ _ _ hk] at hp
              exact hU _ _ hp
      · -- reject branch
        split at h
        · cases h
        · rename_i cl hfind
          simp only [List.getLast?_concat] at h
          cases h
          intro pid p hp
          by_cases hk : pid = policy.policy_id
          · subst hk
            rw [mapGet_mapInsert_self] at hp
            cases hp
            exact ((policyLossIds_reject_perm policy d cl
              (policy.pending_balance + cl.calculations.amount_due)
              hfind).symm.nodup (hU _ _ hpol))
          · rw [mapGet_mapInsert_ne _ _ _ _ hk] at hp
            exact hU _ _ hp
    · cases h

/-! ## Concrete fixtures used by counterexamples and witnesses -/

def acctActivator : String := "activator"
def acctAdmin : String := "admin"
def acctClaims : String := "claims"
def acctOracle : String := "oracle"
def acctPM : String := "pm"
def acctClientAdmin : String := "client-admin"
def acctMallory : String := "mallory"
def issuerId1 : String := "issuer1"
def clientId1 : String := "client1"
def pid1 : String := "p1"
def lossId1 : String := "loss1"
def eventId1 : String := "e1"
def quoteId1 : String := "q1"
def proofTx : String := "tx123"

def issuerUser : User :=
  { user_type := UserType.Issuer
    id := issuerId1
    authorized_administrator := acctAdmin }

def clientUser : User :=
  { user_type := UserType.Client
    id := clientId1
    authorized_administrator := acctClientAdmin }

def loc0 : Location := { latitude := 0, longitude := 0 }

def oracle0 : OracleMetadata :=
  { triggering_values := []
    claims_manager := acctClaims
    oracle := acctOracle }

def quote1 : Quote :=
  { id := quoteId1
    issuer := issuerUser
    client := clientUser
    claims_manager := acctClaims
    policy_type := 1
    max_payout := 1000
    coverage_period := (0, 100)
    policy_manager := acctPM
    location := loc0 }

def ident1 : LossIdentity :=
  { id := lossId1
    event_id := eventId1
    policy_id := pid1
    client_id := clientId1
    issuer_id := issuerId1 }

def closs1 : ComputedLoss :=
  { identity := ident1
    oracle_data := oracle0
    calculations := { payout_percent := 20, amount_due := 200 } }

def oblig1 : Obligation := { computed_loss := closs1, contract_update_time := 5 }

/-- A policy with balance and pending balance 1000 and empty lifecycle lists. -/
def basePolicy : Policy :=
  { policy_id := pid1
    balance := 1000
    pending_balance := 1000
    quote := quote1
    start_date := 0
    end_date := 100
    active := true
    issuer := issuerUser
    client := clientUser
    claims_manager := acctClaims
    policy_type := 1
    max_payout := 1000
    location := loc0
    payments := []
    obligations := []
    rejected_losses := []
    computed_losses := [] }

def payEnv : Env :=
  { predecessor_account_id := acctActivator
    current_account_id := acctPM
    block_timestamp := 7 }

def clientEnv : Env :=
  { predecessor_account_id := acctClientAdmin
    current_account_id := acctPM
    block_timestamp := 7 }

def malloryEnv : Env :=
  { predecessor_account_id := acctMallory
    current_account_id := acctPM
    block_timestamp := 7 }

def resolve1 : ResolveObligation := { identity := ident1, payment_proof := proofTx }

/-- Base storage: one policy, the activator registered, an (empty or filled)
issuer index as each fixture requires. -/
def baseState (policy : Policy) (issuerIndex : List (String × List Obligation))
    (lossIndex : List (String × List LossIdentity)) : PolicyManager :=
  { policies := [(pid1, policy)]
    master_admin := acctAdmin
    new_master_admin := none
    policy_managers := [acctActivator]
    obligations := issuerIndex
    clients := []
    loss_identities := lossIndex }

/-- Balance of the stored policy after a *successful* call, `none` on panic. -/
def okBalance (r : CallResult PolicyManager Payment) (policy_id : String) :
    Option ℚ :=
  match r with
  | CallResult.ok s _ => (mapGet s.policies policy_id).map Policy.balance
  | CallResult.panic _ _ => none

/-! ## Claim C10 -/

/-- **C10**: `compute_loss` called with an empty `loss_contexts` list panics
(`last().unwrap()` on the empty vector) with no state change and before any
remote dispatch is built, while any non-empty list yields the dispatch
addressed to the last context's claims manager — the non-empty precondition is
exactly what makes the operation total. -/
theorem C10_compute_loss_empty_panics (s : PolicyManager) (env : Env) :
    compute_loss s env [] = CallResult.panic s ContractError.unwrapNone ∧
      ∀ (cs : List LossContext) (c : LossContext),
        compute_loss s env (cs ++ [c]) =
          CallResult.ok s
            { claims_manager := c.oracle_data.claims_manager
              loss_contexts := cs ++ [c]
              callback_account := env.current_account_id } := by
  constructor
  · simp [compute_loss]
  · intro cs c
    simp [compute_loss, List.getLast?_concat]

/-! ## Claim C2 -/

/-- **C2** (code bug in `save_policy`): the policy-activator authorization
assert is commented out in the source, so `save_policy` checks nothing — even
for a caller that is *not* a registered policy activator it inserts the policy
and returns it instead of aborting. -/
theorem C2_save_policy_no_auth_check (s : PolicyManager) (env : Env)
    (policy : Policy)
    (hnotrole : s.policy_managers.contains env.predecessor_account_id = false) :
    save_policy s env policy =
      CallResult.ok
        { s with policies := mapInsert s.policies policy.policy_id policy }
        policy := rfl

theorem C2_witness :
    save_policy (baseState basePolicy [] []) malloryEnv basePolicy =
      CallResult.ok
        { baseState basePolicy [] [] with
            policies := mapInsert (baseState basePolicy [] []).policies
              basePolicy.policy_id basePolicy }
        basePolicy :=
  C2_save_policy_no_auth_check (baseState basePolicy [] []) malloryEnv basePolicy
    (by decide)

/-! ## Claim C8 -/

/-- **C8**: on a successfully deserialized callback result, each delivered
`ComputedLoss` whose policy exists is appended to that policy's
`computed_losses`, its `amount_due` is subtracted from `pending_balance`, and
the policy is persisted; a loss whose policy is absent is skipped silently
with no error and no state change; the callback applies this per-loss action
over the whole delivered list. -/
theorem C8_callback_applies_each_loss (s : PolicyManager) (c : ComputedLoss) :
    (∀ policy, mapGet s.policies c.identity.policy_id = some policy →
        apply_computed_loss s c =
          { s with
              policies := mapInsert s.policies policy.policy_id
                { policy with
                    computed_losses := policy.computed_losses ++ [c]
                    pending_balance :=
                      policy.pending_balance - c.calculations.amount_due } }) ∧
      (mapGet s.policies c.identity.policy_id = none →
        apply_computed_loss s c = s) ∧
      ∀ ls, compute_loss_callback s 1 (PromiseResult.Successful (some ls)) =
        CallResult.ok (ls.foldl apply_computed_loss s) ls := by
  refine ⟨?_, ?_, ?_⟩
  · intro policy hpol
    simp [apply_computed_loss, hpol]
  · intro hnone
    simp [apply_computed_loss, hnone]
  · intro ls
    simp [compute_loss_callback]

theorem C8_witness :
    apply_computed_loss (baseState basePolicy [] []) closs1 =
      { baseState basePolicy [] [] with
          policies := mapInsert (baseState basePolicy [] []).policies
            basePolicy.policy_id
            { basePolicy with
                computed_losses := basePolicy.computed_losses ++ [closs1]
                pending_balance :=
                  basePolicy.pending_balance - closs1.calculations.amount_due } } :=
  (C8_callback_applies_each_loss (baseState basePolicy [] []) closs1).1 basePolicy
    (by decide)

/-! ## Claim C9 -/

/-- **C9**: when the decision's `policy_id` names no stored policy,
`post_loss_decision` performs no authorization check (the environment is
arbitrary) and raises no policy-not-found error: it skips the policy mutation
entirely, removes the matching identity from the caller-named client's
loss-identity index — panicking only when the client has no index entry
(`unwrap` on `None`) or the identity is absent from it
(`LOSS_IDENTITY_NOT_FOUND`) — and returns the decision as acknowledgment. -/
theorem C9_decision_absent_policy (s : PolicyManager) (env : Env)
    (d : LossDecision)
    (hpol : mapGet s.policies d.identity.policy_id = none) :
    (mapGet s.loss_identities d.identity.client_id = none →
        post_loss_decision s env d = CallResult.panic s ContractError.unwrapNone) ∧
      ∀ lvec, mapGet s.loss_identities d.identity.client_id = some lvec →
        (lvec.find? (lossIdentityMatches d.identity) = none →
            post_loss_decision s env d =
              CallResult.panic s ContractError.lossIdentityNotFound) ∧
          ∀ li, lvec.find? (lossIdentityMatches d.identity) = some li →
            post_loss_decision s env d =
              CallResult.ok
                { s with
                    loss_identities := mapInsert s.loss_identities
                      d.identity.client_id
                      (removeFirst (lossIdentityMatches d.identity) lvec) }
                d := by
  have hphase := post_loss_decision_policy_absent s env d hpol
  refine ⟨?_, ?_⟩
  · intro hnone
    simp [post_loss_decision, hphase, remove_loss_identity, hnone]
  · intro lvec hlv
    refine ⟨?_, ?_⟩
    · intro hnone
      simp [post_loss_decision, hphase, remove_loss_identity, hlv, hnone]
    · intro li hli
      simp [post_loss_decision, hphase, remove_loss_identity, hlv, hli]

def c9State : PolicyManager :=
  { policies := []
    master_admin := acctAdmin
    new_master_admin := none
    policy_managers := []
    obligations := []
    clients := []
    loss_identities := [(clientId1, [ident1])] }

def d1 : LossDecision := { accept := true, identity := ident1 }

theorem C9_witness :
    post_loss_decision c9State malloryEnv d1 =
      CallResult.ok
        { c9State with
            loss_identities := mapInsert c9State.loss_identities
              d1.identity.client_id
              (removeFirst (lossIdentityMatches d1.identity) [ident1]) }
        d1 :=
  ((C9_decision_absent_policy c9State malloryEnv d1 (by decide)).2 [ident1]
    (by decide)).2 ident1 (by decide)

/-! ## Claim C1 -/

theorem post_payment_made_unauthorized_eq (s : PolicyManager) (env : Env)
    (ro : ResolveObligation)
    (hauth : s.policy_managers.contains env.predecessor_account_id = false) :
    post_payment_made s env ro =
      CallResult.panic s ContractError.policyManagerRestricted := by
  have hmem : ¬ env.predecessor_account_id ∈ s.policy_managers := by
    simpa using hauth
  simp [post_payment_made, hmem]

theorem post_payment_made_obligation_missing_eq (s : PolicyManager) (env : Env)
    (ro : ResolveObligation) (policy : Policy)
    (hauth : s.policy_managers.contains env.predecessor_account_id = true)
    (hpol : mapGet s.policies ro.identity.policy_id = some policy)
    (hfind : policy.obligations.find? (obligationMatches ro.identity) = none) :
    post_payment_made s env ro =
      CallResult.panic s ContractError.obligationNotFound := by
  have hmem : env.predecessor_account_id ∈ s.policy_managers := by simpa using hauth
  simp [post_payment_made, hmem, hpol, hfind]

theorem post_payment_made_vec_missing_eq (s : PolicyManager) (env : Env)
    (ro : ResolveObligation) (policy : Policy) (obligation : Obligation)
    (vec : List Obligation)
    (hauth : s.policy_managers.contains env.predecessor_account_id = true)
    (hpol : mapGet s.policies ro.identity.policy_id = some policy)
    (hfind : policy.obligations.find? (obligationMatches ro.identity) = some obligation)
    (hvec : mapGet s.obligations ro.identity.issuer_id = some vec)
    (hvfind : vec.find? (obligationMatches ro.identity) = none) :
    post_payment_made s env ro =
      CallResult.panic
        { s with
            policies := mapInsert s.policies ro.identity.policy_id
              { policy with
                  payments := policy.payments ++
                    [{ contract_update_time := env.block_timestamp
                       obligation := obligation
                       payment_proof := ro.payment_proof }]
                  obligations :=
                    removeFirst (obligationMatches ro.identity) policy.obligations
                  balance :=
                    policy.balance - obligation.computed_loss.calculations.amount_due } }
        ContractError.obligationNotFoundInVec := by
  have hmem : env.predecessor_account_id ∈ s.policy_managers := by simpa using hauth
  simp [post_payment_made, hmem, hpol, hfind, hvec, hvfind]

def c1Policy : Policy := { basePolicy with balance := 100, obligations := [oblig1] }

def c1State : PolicyManager := baseState c1Policy [(issuerId1, [oblig1])] []

/-- **C1** counterexample: from a stored policy with balance 100 holding an
obligation of `amount_due` 200, `post_payment_made` *succeeds* and leaves the
stored balance at −100, violating `0 ≤ balance`: the debit has no floor. -/
theorem C1_counterexample :
    okBalance (post_payment_made c1State payEnv resolve1) pid1 = some (-100) ∧
      ¬ (0 : ℚ) ≤ -100 := by
  constructor
  · norm_num [okBalance, post_payment_made, c1State, baseState, c1Policy, basePolicy,
      payEnv, resolve1, ident1, oblig1, closs1, mapGet, mapInsert, removeFirst,
      obligationMatches, acctActivator, pid1, lossId1, issuerId1, List.find?,
      List.contains, List.elem]
  · norm_num

/-- **C1** (amended): `post_payment_made` debits the stored balance by exactly
the paid obligation's `amount_due` and enforces no bound itself; the bounds
`0 ≤ balance ≤ quote.max_payout` hold afterwards only under the additional
assumptions that they held before and that `0 ≤ amount_due ≤ balance`
(`save_policy` likewise stores the given policy verbatim, checking nothing). -/
theorem C1_payment_debits_exactly (s : PolicyManager) (env : Env)
    (ro : ResolveObligation) (policy : Policy) (s' : PolicyManager) (pay : Payment)
    (hpol : mapGet s.policies ro.identity.policy_id = some policy)
    (h : post_payment_made s env ro = CallResult.ok s' pay)
    (hub : policy.balance ≤ policy.quote.max_payout)
    (hd0 : 0 ≤ pay.obligation.computed_loss.calculations.amount_due)
    (hdb : pay.obligation.computed_loss.calculations.amount_due ≤ policy.balance) :
    ∀ p', mapGet s'.policies ro.identity.policy_id = some p' →
      p'.balance =
          policy.balance - pay.obligation.computed_loss.calculations.amount_due ∧
        0 ≤ p'.balance ∧ p'.balance ≤ p'.quote.max_payout := by
  cases hc : s.policy_managers.contains env.predecessor_account_id with
  | false =>
      rw [post_payment_made_unauthorized_eq s env ro hc] at h
      cases h
  | true =>
      cases hfind : policy.obligations.find? (obligationMatches ro.identity) with
      | none =>
          rw [post_payment_made_obligation_missing_eq s env ro policy hc hpol hfind] at h
          cases h
      | some ob =>
          cases hvec : mapGet s.obligations ro.identity.issuer_id with
          | none =>
              rw [post_payment_made_index_missing_eq s env ro policy ob
                hc hpol hfind hvec] at h
              cases h
          | some vec =>
              cases hov : vec.find? (obligationMatches ro.identity) with
              | none =>
                  rw [post_payment_made_vec_missing_eq s env ro policy ob vec
                    hc hpol hfind hvec hov] at h
                  cases h
              | some ov =>
                  rw [post_payment_made_eq s env ro policy ob vec ov
                    hc hpol hfind hvec hov] at h
                  cases h
                  simp only [] at hd0 hdb
                  intro p' hp'
                  rw [mapGet_mapInsert_self] at hp'
                  cases hp'
                  refine ⟨rfl, ?_, ?_⟩
                  · simp only []
                    linarith
                  · simp only []
                    linarith

def c1wPolicy : Policy := { basePolicy with obligations := [oblig1] }

def c1wState : PolicyManager := baseState c1wPolicy [(issuerId1, [oblig1])] []

def c1wPay : Payment :=
  { contract_update_time := 7, payment_proof := proofTx, obligation := oblig1 }

def c1wMut : Policy :=
  { c1wPolicy with
      payments := [c1wPay]
      obligations := []
      balance := c1wPolicy.balance - oblig1.computed_loss.calculations.amount_due }

def c1wAfter : PolicyManager :=
  { c1wState with
      policies := mapInsert c1wState.policies pid1 c1wMut
      obligations := mapInsert c1wState.obligations issuerId1 [] }

theorem C1_witness :
    c1wMut.balance =
        c1wPolicy.balance - c1wPay.obligation.computed_loss.calculations.amount_due ∧
      0 ≤ c1wMut.balance ∧ c1wMut.balance ≤ c1wMut.quote.max_payout :=
  C1_payment_debits_exactly c1wState payEnv resolve1 c1wPolicy c1wAfter c1wPay
    (by decide) (by rfl)
    (by norm_num [c1wPolicy, basePolicy, quote1])
    (by norm_num [c1wPay, oblig1, closs1])
    (by norm_num [c1wPay, c1wPolicy, basePolicy, oblig1, closs1])
    c1wMut (by rfl)

/-! ## Claim C3 -/

def c3State : PolicyManager := baseState c1wPolicy [] []

def c3After : PolicyManager :=
  { c3State with policies := mapInsert c3State.policies pid1 c1wMut }

/-- **C3** counterexample: with the per-issuer obligation index empty,
`post_payment_made` fails with the index-divergence error — but the stored
policy has already been persisted with the payment appended, the obligation
removed and the balance debited from 1000 to 800, so a partial write *did*
occur. -/
theorem C3_counterexample :
    post_payment_made c3State payEnv resolve1 =
        CallResult.panic c3After ContractError.obligationNotFoundInManager ∧
      (mapGet c3After.policies pid1).map Policy.balance = some 800 ∧
      (mapGet c3State.policies pid1).map Policy.balance = some 1000 := by
  refine ⟨by rfl, ?_, ?_⟩
  · norm_num [c3After, c3State, baseState, c1wMut, c1wPolicy, basePolicy, oblig1,
      closs1, mapGet, mapInsert, pid1, List.find?]
  · norm_num [c3State, baseState, c1wPolicy, basePolicy, mapGet, pid1, List.find?]

/-- **C3** (amended): when `post_payment_made` fails because the per-issuer
obligation index has no entry (`ObligationNotFoundInIndex` divergence check),
the Policy has *already* been persisted — payment appended, obligation
removed, balance debited — because the policy write (spec §4.4 step 4)
precedes the index lookups (step 5); `postLossDecision` step 7 is therefore
not the sole exception to the lookups-before-persistence rule. -/
theorem C3_index_failure_leaves_partial_write (s : PolicyManager) (env : Env)
    (ro : ResolveObligation) (policy : Policy) (obligation : Obligation)
    (hauth : s.policy_managers.contains env.predecessor_account_id = true)
    (hpol : mapGet s.policies ro.identity.policy_id = some policy)
    (hfind : policy.obligations.find? (obligationMatches ro.identity) = some obligation)
    (hvecnone : mapGet s.obligations ro.identity.issuer_id = none) :
    post_payment_made s env ro =
      CallResult.panic
        { s with
            policies := mapInsert s.policies ro.identity.policy_id
              { policy with
                  payments := policy.payments ++
                    [{ contract_update_time := env.block_timestamp
                       obligation := obligation
                       payment_proof := ro.payment_proof }]
                  obligations :=
                    removeFirst (obligationMatches ro.identity) policy.obligations
                  balance :=
                    policy.balance - obligation.computed_loss.calculations.amount_due } }
        ContractError.obligationNotFoundInManager :=
  post_payment_made_index_missing_eq s env ro policy obligation hauth hpol hfind hvecnone

theorem C3_witness :
    post_payment_made c3State payEnv resolve1 =
      CallResult.panic
        { c3State with
            policies := mapInsert c3State.policies resolve1.identity.policy_id
              { c1wPolicy with
                  payments := c1wPolicy.payments ++
                    [{ contract_update_time := payEnv.block_timestamp
                       obligation := oblig1
                       payment_proof := resolve1.payment_proof }]
                  obligations :=
                    removeFirst (obligationMatches resolve1.identity) c1wPolicy.obligations
                  balance :=
                    c1wPolicy.balance - oblig1.computed_loss.calculations.amount_due } }
        ContractError.obligationNotFoundInManager :=
  C3_index_failure_leaves_partial_write c3State payEnv resolve1 c1wPolicy oblig1
    (by decide) (by decide) (by decide) (by decide)

/-! ## Claim C7 -/

/-- **C7**: paying the same loss identity twice fails on the second call with
`OBLIGATION_NOT_FOUND`: the first successful `post_payment_made` removed the
only matching obligation from the policy, so no obligation is ever paid
twice. -/
theorem C7_no_double_payment (s : PolicyManager) (env₁ env₂ : Env)
    (ro : ResolveObligation) (policy : Policy) (ob : Obligation)
    (vec : List Obligation) (ov : Obligation)
    (hauth₁ : s.policy_managers.contains env₁.predecessor_account_id = true)
    (hauth₂ : s.policy_managers.contains env₂.predecessor_account_id = true)
    (hpol : mapGet s.policies ro.identity.policy_id = some policy)
    (hfind : policy.obligations.find? (obligationMatches ro.identity) = some ob)
    (honce : (removeFirst (obligationMatches ro.identity) policy.obligations).find?
        (obligationMatches ro.identity) = none)
    (hvec : mapGet s.obligations ro.identity.issuer_id = some vec)
    (hvfind : vec.find? (obligationMatches ro.identity) = some ov) :
    ∀ s₁ pay, post_payment_made s env₁ ro = CallResult.ok s₁ pay →
      post_payment_made s₁ env₂ ro =
        CallResult.panic s₁ ContractError.obligationNotFound := by
  intro s₁ pay h1
  rw [post_payment_made_eq s env₁ ro policy ob vec ov hauth₁ hpol hfind hvec hvfind] at h1
  cases h1
  exact post_payment_made_obligation_missing_eq _ env₂ ro _
    hauth₂ (mapGet_mapInsert_self _ _ _) honce

theorem C7_witness :
    post_payment_made c1wAfter payEnv resolve1 =
      CallResult.panic c1wAfter ContractError.obligationNotFound :=
  C7_no_double_payment c1wState payEnv payEnv resolve1 c1wPolicy oblig1 [oblig1] oblig1
    (by decide) (by decide) (by decide) (by decide) (by decide) (by decide) (by decide)
    c1wAfter c1wPay (by rfl)

/-! ## Composed characterizations of `post_loss_decision` -/

theorem post_loss_decision_reject_eq (s : PolicyManager) (env : Env)
    (d : LossDecision) (policy : Policy) (cl : ComputedLoss)
    (lvec : List LossIdentity) (li : LossIdentity)
    (hpol : mapGet s.policies d.identity.policy_id = some policy)
    (hauth : (policy.quote.client.authorized_administrator ==
        env.predecessor_account_id) = true)
    (hacc : d.accept = false)
    (hfind : policy.computed_losses.find? (computedLossMatches d.identity) = some cl)
    (hlv : mapGet s.loss_identities d.identity.client_id = some lvec)
    (hli : lvec.find? (lossIdentityMatches d.identity) = some li) :
    post_loss_decision s env d =
      CallResult.ok
        { s with
            policies := mapInsert s.policies policy.policy_id
              { policy with
                  computed_losses :=
                    removeFirst (computedLossMatches d.identity) policy.computed_losses
                  rejected_losses := policy.rejected_losses ++ [cl]
                  pending_balance :=
                    policy.pending_balance + cl.calculations.amount_due }
            loss_identities := mapInsert s.loss_identities d.identity.client_id
              (removeFirst (lossIdentityMatches d.identity) lvec) }
        d := by
  unfold post_loss_decision
  rw [post_loss_decision_policy_reject_eq s env d policy cl hpol hauth hacc hfind]
  exact remove_loss_identity_eq _ d lvec li hlv hli

theorem post_loss_decision_accept_eq (s : PolicyManager) (env : Env)
    (d : LossDecision) (policy : Policy) (cl : ComputedLoss) (vec : List Obligation)
    (lvec : List LossIdentity) (li : LossIdentity)
    (hpol : mapGet s.policies d.identity.policy_id = some policy)
    (hauth : (policy.quote.client.authorized_administrator ==
        env.predecessor_account_id) = true)
    (hacc : d.accept = true)
    (hfind : policy.computed_losses.find? (computedLossMatches d.identity) = some cl)
    (hvec : mapGet s.obligations d.identity.issuer_id = some vec)
    (hlv : mapGet s.loss_identities d.identity.client_id = some lvec)
    (hli : lvec.find? (lossIdentityMatches d.identity) = some li) :
    post_loss_decision s env d =
      CallResult.ok
        { s with
            obligations := mapInsert s.obligations d.identity.issuer_id
              (vec ++ [{ computed_loss := cl
                         contract_update_time := env.block_timestamp }])
            policies := mapInsert s.policies policy.policy_id
              { policy with
                  computed_losses :=
                    removeFirst (computedLossMatches d.identity) policy.computed_losses
                  obligations := policy.obligations ++
                    [{ computed_loss := cl
                       contract_update_time := env.block_timestamp }] }
            loss_identities := mapInsert s.loss_identities d.identity.client_id
              (removeFirst (lossIdentityMatches d.identity) lvec) }
        d := by
  unfold post_loss_decision
  rw [post_loss_decision_policy_accept_eq s env d policy cl vec hpol hauth hacc hfind hvec]
  exact remove_loss_identity_eq _ d lvec li hlv hli

/-! ## Claim C6 -/

/-- **C6**: the rejection credit is the exact inverse of the gateway's debit.
For a stored policy and a delivered loss `c` with a fresh id, running the
loss-computation callback (which debits `amount_due` from `pending_balance`)
and then `post_loss_decision(accept = false)` on the same identity restores
`pending_balance` to its original value, moves `c` into `rejected_losses`, and
leaves `computed_losses` exactly as before (without `c`). -/
theorem C6_reject_inverts_debit (s : PolicyManager) (envD : Env)
    (c : ComputedLoss) (policy : Policy) (s₁ : PolicyManager)
    (r₁ : List ComputedLoss) (lvec : List LossIdentity) (li : LossIdentity)
    (hpol : mapGet s.policies c.identity.policy_id = some policy)
    (hkey : policy.policy_id = c.identity.policy_id)
    (hauth : (policy.quote.client.authorized_administrator ==
        envD.predecessor_account_id) = true)
    (hfresh : policy.computed_losses.find? (computedLossMatches c.identity) = none)
    (hlv : mapGet s.loss_identities c.identity.client_id = some lvec)
    (hli : lvec.find? (lossIdentityMatches c.identity) = some li)
    (hcb : compute_loss_callback s 1 (PromiseResult.Successful (some [c])) =
      CallResult.ok s₁ r₁) :
    ∀ s₂ r₂, post_loss_decision s₁ envD (LossDecision.mk false c.identity) =
        CallResult.ok s₂ r₂ →
      ∀ p₂, mapGet s₂.policies c.identity.policy_id = some p₂ →
        p₂.pending_balance = policy.pending_balance ∧
          p₂.computed_losses = policy.computed_losses ∧
          p₂.rejected_losses = policy.rejected_losses ++ [c] := by
  simp [compute_loss_callback] at hcb
  obtain ⟨hs₁, hr₁⟩ := hcb
  subst hs₁
  have hpc : computedLossMatches c.identity c = true := by
    simp [computedLossMatches]
  have hsA : apply_computed_loss s c =
      { s with
          policies := mapInsert s.policies policy.policy_id
            { policy with
                computed_losses := policy.computed_losses ++ [c]
                pending_balance :=
                  policy.pending_balance - c.calculations.amount_due } } := by
    simp [apply_computed_loss, hpol]
  intro s₂ r₂ h
  rw [hsA] at h
  rw [post_loss_decision_reject_eq
    { s with
        policies := mapInsert s.policies policy.policy_id
          { policy with
              computed_losses := policy.computed_losses ++ [c]
              pending_balance := policy.pending_balance - c.calculations.amount_due } }
    envD (LossDecision.mk false c.identity)
    { policy with
        computed_losses := policy.computed_losses ++ [c]
        pending_balance := policy.pending_balance - c.calculations.amount_due }
    c lvec li
    (by rw [← hkey]; exact mapGet_mapInsert_self _ _ _)
    hauth rfl
    (by rw [find?_append_of_none _ _ _ hfresh]; simp [List.find?, hpc])
    hlv hli] at h
  cases h
  intro p₂ hp₂
  rw [← hkey, mapGet_mapInsert_self] at hp₂
  cases hp₂
  refine ⟨?_, ?_, rfl⟩
  · exact sub_add_cancel policy.pending_balance c.calculations.amount_due
  · show removeFirst (computedLossMatches c.identity)
        (policy.computed_losses ++ [c]) = policy.computed_losses
    rw [removeFirst_append_of_none _ _ _ hfresh, removeFirst_cons_of_pos _ _ _ hpc]
    simp

def c6State : PolicyManager := baseState basePolicy [] [(clientId1, [ident1])]

def c6s1 : PolicyManager :=
  { c6State with
      policies := mapInsert c6State.policies pid1
        { basePolicy with
            computed_losses := [closs1]
            pending_balance :=
              basePolicy.pending_balance - closs1.calculations.amount_due } }

def c6d : LossDecision := LossDecision.mk false closs1.identity

def c6p2 : Policy :=
  { basePolicy with
      computed_losses := []
      rejected_losses := [closs1]
      pending_balance :=
        basePolicy.pending_balance - closs1.calculations.amount_due +
          closs1.calculations.amount_due }

def c6s2 : PolicyManager :=
  { c6s1 with
      policies := mapInsert c6s1.policies pid1 c6p2
      loss_identities := mapInsert c6s1.loss_identities clientId1 [] }

theorem C6_witness :
    c6p2.pending_balance = basePolicy.pending_balance ∧
      c6p2.computed_losses = basePolicy.computed_losses ∧
      c6p2.rejected_losses = basePolicy.rejected_losses ++ [closs1] :=
  C6_reject_inverts_debit c6State clientEnv closs1 basePolicy c6s1 [closs1]
    [ident1] ident1 (by decide) (by decide) (by decide) (by decide) (by decide)
    (by decide) (by rfl) c6s2 c6d (by rfl) c6p2 (by rfl)

/-! ## Claim C5 -/

/-- **C5**: accepting a computed loss with `post_loss_decision(accept = true)`
and then resolving the resulting obligation with `post_payment_made` decreases
the stored balance by exactly the loss's `amount_due` and removes the
obligation from both the policy's `obligations` list (restored to its original
value, which did not contain the id) and the per-issuer obligation index
(restored to the original `vec`). -/
theorem C5_accept_then_pay (s : PolicyManager) (envD envP : Env)
    (d : LossDecision) (proofStr : String) (policy : Policy) (cl : ComputedLoss)
    (vec : List Obligation) (lvec : List LossIdentity) (li : LossIdentity)
    (hacc : d.accept = true)
    (hpol : mapGet s.policies d.identity.policy_id = some policy)
    (hkey : policy.policy_id = d.identity.policy_id)
    (hauthD : (policy.quote.client.authorized_administrator ==
        envD.predecessor_account_id) = true)
    (hfind : policy.computed_losses.find? (computedLossMatches d.identity) = some cl)
    (hvec : mapGet s.obligations d.identity.issuer_id = some vec)
    (hvnone : vec.find? (obligationMatches d.identity) = none)
    (honone : policy.obligations.find? (obligationMatches d.identity) = none)
    (hlv : mapGet s.loss_identities d.identity.client_id = some lvec)
    (hli : lvec.find? (lossIdentityMatches d.identity) = some li)
    (hauthP : s.policy_managers.contains envP.predecessor_account_id = true) :
    ∀ s₁ r₁, post_loss_decision s envD d = CallResult.ok s₁ r₁ →
      ∀ s₂ pay,
        post_payment_made s₁ envP { identity := d.identity, payment_proof := proofStr } =
          CallResult.ok s₂ pay →
        ∀ p₂, mapGet s₂.policies d.identity.policy_id = some p₂ →
          p₂.balance = policy.balance - cl.calculations.amount_due ∧
            p₂.obligations = policy.obligations ∧
            mapGet s₂.obligations d.identity.issuer_id =
              some vec := by
  have hclid : (cl.identity.id == d.identity.id) = true := by
    have := List.find?_some hfind
    simpa [computedLossMatches] using this
  have hobnew : obligationMatches d.identity
      { computed_loss := cl, contract_update_time := envD.block_timestamp } = true := by
    simp [obligationMatches, hclid]
  intro s₁ r₁ h₁
  rw [post_loss_decision_accept_eq s envD d policy cl vec lvec li
    hpol hauthD hacc hfind hvec hlv hli] at h₁
  cases h₁
  intro s₂ pay h₂
  rw [post_payment_made_eq
    { s with
        obligations := mapInsert s.obligations d.identity.issuer_id
          (vec ++ [{ computed_loss := cl
                     contract_update_time := envD.block_timestamp }])
        policies := mapInsert s.policies policy.policy_id
          { policy with
              computed_losses :=
                removeFirst (computedLossMatches d.identity) policy.computed_losses
              obligations := policy.obligations ++
                [{ computed_loss := cl
                   contract_update_time := envD.block_timestamp }] }
        loss_identities := mapInsert s.loss_identities d.identity.client_id
          (removeFirst (lossIdentityMatches d.identity) lvec) }
    envP { identity := d.identity, payment_proof := proofStr }
    { policy with
        computed_losses :=
          removeFirst (computedLossMatches d.identity) policy.computed_losses
        obligations := policy.obligations ++
          [{ computed_loss := cl
             contract_update_time := envD.block_timestamp }] }
    { computed_loss := cl, contract_update_time := envD.block_timestamp }
    (vec ++ [{ computed_loss := cl, contract_update_time := envD.block_timestamp }])
    { computed_loss := cl, contract_update_time := envD.block_timestamp }
    hauthP
    (by rw [← hkey]; exact mapGet_mapInsert_self _ _ _)
    (by rw [find?_append_of_none _ _ _ honone]; simp [List.find?, hobnew])
    (mapGet_mapInsert_self _ _ _)
    (by rw [find?_append_of_none _ _ _ hvnone]; simp [List.find?, hobnew])] at h₂
  cases h₂
  intro p₂ hp₂
  rw [mapGet_mapInsert_self] at hp₂
  cases hp₂
  refine ⟨rfl, ?_, ?_⟩
  · show removeFirst (obligationMatches d.identity)
        (policy.obligations ++
          [{ computed_loss := cl, contract_update_time := envD.block_timestamp }]) =
      policy.obligations
    rw [removeFirst_append_of_none _ _ _ honone,
      removeFirst_cons_of_pos _ _ _ hobnew]
    simp
  · show mapGet (mapInsert
        (mapInsert s.obligations d.identity.issuer_id
          (vec ++ [{ computed_loss := cl
                     contract_update_time := envD.block_timestamp }]))
        d.identity.issuer_id
        (removeFirst (obligationMatches d.identity)
          (vec ++ [{ computed_loss := cl
                     contract_update_time := envD.block_timestamp }])))
        d.identity.issuer_id = some vec
    rw [mapGet_mapInsert_self, removeFirst_append_of_none _ _ _ hvnone,
      removeFirst_cons_of_pos _ _ _ hobnew]
    simp

def c5Policy : Policy :=
  { basePolicy with computed_losses := [closs1], pending_balance := 800 }

def c5State : PolicyManager :=
  baseState c5Policy [(issuerId1, [])] [(clientId1, [ident1])]

def c5NewOb : Obligation := { computed_loss := closs1, contract_update_time := 7 }

def c5p1 : Policy := { c5Policy with computed_losses := [], obligations := [c5NewOb] }

def c5s1 : PolicyManager :=
  { c5State with
      obligations := mapInsert c5State.obligations issuerId1 [c5NewOb]
      policies := mapInsert c5State.policies pid1 c5p1
      loss_identities := mapInsert c5State.loss_identities clientId1 [] }

def c5pay : Payment :=
  { contract_update_time := 7, payment_proof := proofTx, obligation := c5NewOb }

def c5p2 : Policy :=
  { c5p1 with
      payments := [c5pay]
      obligations := []
      balance := c5p1.balance - c5NewOb.computed_loss.calculations.amount_due }

def c5s2 : PolicyManager :=
  { c5s1 with
      policies := mapInsert c5s1.policies pid1 c5p2
      obligations := mapInsert c5s1.obligations issuerId1 [] }

theorem C5_witness :
    c5p2.balance = c5Policy.balance - closs1.calculations.amount_due ∧
      c5p2.obligations = c5Policy.obligations ∧
      mapGet c5s2.obligations d1.identity.issuer_id = some [] :=
  C5_accept_then_pay c5State clientEnv payEnv d1 proofTx c5Policy closs1 [] [ident1]
    ident1 (by decide) (by decide) (by decide) (by decide) (by decide) (by decide)
    (by decide) (by decide) (by decide) (by decide) (by decide)
    c5s1 d1 (by rfl) c5s2 c5pay (by rfl) c5p2 (by rfl)

/-! ## Claim C4 -/

def c4BadPolicy : Policy :=
  { basePolicy with computed_losses := [closs1], obligations := [oblig1] }

def c4BadState : PolicyManager :=
  { PolicyManager.new payEnv with policies := [(pid1, c4BadPolicy)] }

/-- **C4** counterexample: the state holding a policy whose loss id `loss1`
sits in both `computed_losses` and `obligations` is reachable — a freshly
initialized contract followed by one `save_policy` call, which validates
nothing — so the mutual-exclusion property does not hold in every reachable
state. -/
theorem C4_counterexample : Reachable c4BadState ∧ ¬ StateMutex c4BadState := by
  constructor
  · exact Reachable.step _ _ (Reachable.init payEnv)
      (ContractStep.save _ payEnv c4BadPolicy _ _ (by rfl))
  · intro hmx
    exact (hmx pid1 c4BadPolicy (by decide) lossId1 (by decide)).1 (by decide)

theorem StateUnique_of_single (k : String) (policy : Policy) (s : PolicyManager)
    (hs : s.policies = [(k, policy)]) (hu : uniqueIds policy) : StateUnique s := by
  intro pid p hp
  rw [hs] at hp
  by_cases hk : k = pid
  · subst hk
    simp [mapGet, List.find?] at hp
    exact hp ▸ hu
  · have hb : (k == pid) = false := by simp [hk]
    simp [mapGet, List.find?, hb] at hp

/-- **C4** (amended): the decision transition does enforce mutual exclusion by
moving records: if every stored policy has pairwise-distinct loss ids across
`computed_losses ++ obligations ++ rejected_losses ++ payments`, then after
any successful `post_loss_decision` every stored policy still does, and in
particular an id in `computed_losses` is absent from `obligations` and
`rejected_losses`.  The invariant is not unconditional over reachable states
because `save_policy` (and the loss callback) insert externally supplied
records unchecked — see the counterexample. -/
theorem C4_decision_preserves_exclusion (s : PolicyManager) (env : Env)
    (d : LossDecision) (s' : PolicyManager) (r : LossDecision)
    (hU : StateUnique s)
    (h : post_loss_decision s env d = CallResult.ok s' r) :
    StateUnique s' ∧ StateMutex s' := by
  unfold post_loss_decision at h
  split at h
  · cases h
  · rename_i s₂ u hphase
    have hU₂ := post_loss_decision_policy_preserves_unique s env d s₂ u hU hphase
    obtain ⟨hps, _⟩ := remove_loss_identity_policies s₂ s' d r h
    have hU' : StateUnique s' := by
      intro pid p hp
      rw [hps] at hp
      exact hU₂ pid p hp
    exact ⟨hU', fun pid p hp => uniqueIds_mutualExclusion p (hU' pid p hp)⟩

def c4wState : PolicyManager :=
  baseState c5Policy [] [(clientId1, [ident1])]

def c4wMut : Policy :=
  { c5Policy with
      computed_losses := []
      rejected_losses := [closs1]
      pending_balance := c5Policy.pending_balance + closs1.calculations.amount_due }

def c4wAfter : PolicyManager :=
  { c4wState with
      policies := mapInsert c4wState.policies pid1 c4wMut
      loss_identities := mapInsert c4wState.loss_identities clientId1 [] }

def c4d : LossDecision := { accept := false, identity := ident1 }

theorem C4_witness : StateUnique c4wAfter ∧ StateMutex c4wAfter :=
  C4_decision_preserves_exclusion c4wState clientEnv c4d c4wAfter c4d
    (StateUnique_of_single pid1 c5Policy c4wState (by rfl)
      (by unfold uniqueIds policyLossIds; decide))
    (by rfl)
